import Mathlib

/-!
Axis-aligned boxes (util/axis_box.hpp).

A shallow embedding of the class template `Axis_Box<T, N>` and of the
operations it offers: the three constructors, `min`, `max`, `dim`, the two
`contains` overloads, `intersects`, `operator+` and `volume`.

The scalar type `T` is taken to be the mathematical integers: the header
instantiates the template at `int`, `float` and `double`; signed overflow of
`int` is undefined behaviour in C++, so the defined behaviour of the `int`
instantiation is the one of exact integer arithmetic.  The dimension `N` is a
natural number (the template parameter is a non-negative `int`).  Where the
rounding and the infinities of a floating-point scalar make the class behave
differently, the instantiation at `float` is embedded next to it
(`Axis_Box_float`).

The headers `vec.hpp`, `alg.hpp` and `core.hpp` that the class includes are
not in `src/`; the few things the class uses from them (the vector type, the
two predicate reductions, the assertion) are modelled from the specification
and marked as such.
-/

/-- Modelled from the spec: the vector type `Vec<T, N>` of `vec.hpp`, which is
not among the sources.  The spec describes it as "a fixed-size ordered tuple
of N scalars of type T, supporting element-wise addition and indexed access";
indexed access `v[i]` is function application. -/
abbrev Vec (N : Nat) : Type := Fin N → Int

namespace Vec

/-- Modelled from the spec: the default-constructed vector `Vec<T, N>()` of
`vec.hpp`.  The spec says that a corner built this way is "at origin", that
is, every component is zero. -/
def origin (N : Nat) : Vec N := fun _ => 0

/-- Modelled from the spec: `operator+` of `Vec<T, N>` from `vec.hpp`,
"element-wise addition". -/
def add {N : Nat} (a b : Vec N) : Vec N := fun i => a i + b i

/-- Modelled from the spec: the iteration `v.begin() .. v.end()` over the
components of a vector, in index order. -/
def toList {N : Nat} (v : Vec N) : List Int := List.ofFn v

end Vec

/-- The early-exit loop shared by the two predicate reductions: visit the
indices in order and stop with `false` at the first one where `f` fails. -/
def all_of_loop {N : Nat} (f : Fin N → Bool) : List (Fin N) → Bool
  | [] => true
  | i :: rest => if f i then all_of_loop f rest else false

/-- Modelled from the spec: the helper `all_of` of `alg.hpp`, an "elementwise
predicate-reduction helper over fixed-size vectors": true when the predicate
holds of every component. -/
def all_of {N : Nat} (v : Vec N) (pred : Int → Bool) : Bool :=
  all_of_loop (fun i => pred (v i)) (List.finRange N)

/-- Modelled from the spec: the helper `pairwise_all_of` of `alg.hpp`, a
"pairwise predicate-reduction helper over fixed-size vectors": true when the
predicate holds of every pair of components at the same index. -/
def pairwise_all_of {N : Nat} (a b : Vec N) (pred : Int → Int → Bool) : Bool :=
  all_of_loop (fun i => pred (a i) (b i)) (List.finRange N)

/-- The class `Axis_Box<T, N>`: its two private members. -/
structure Axis_Box (N : Nat) where
  /-- The member `min_pt`, the minimum corner. -/
  min_pt : Vec N
  /-- The member `dim_vec`, the extent along each axis. -/
  dim_vec : Vec N

namespace Axis_Box

variable {N : Nat}

/-- Modelled from the spec: the macro `ASSERT` of `core.hpp`.  A violated
assertion is "fatal, non-recoverable": the construction yields no box. -/
def ASSERT {α : Type} (cond : Bool) (value : α) : Option α :=
  if cond then some value else none

/-- The constructor `Axis_Box()`: both members are default-constructed
vectors. -/
def ctor_default (N : Nat) : Axis_Box N :=
  { min_pt := Vec.origin N, dim_vec := Vec.origin N }

/-- The constructor `Axis_Box(min, dim)`: stores both arguments, then asserts
`all_of(dim_vec, [](T x) { return x >= 0; })`. -/
def ctor_min_dim (min dim : Vec N) : Option (Axis_Box N) :=
  let self : Axis_Box N := { min_pt := min, dim_vec := dim }
  ASSERT (all_of self.dim_vec (fun x => decide (x ≥ 0))) self

/-- The constructor `Axis_Box(dim)`: `min_pt` is default-constructed, `dim_vec`
is the argument, then the same assertion. -/
def ctor_dim (dim : Vec N) : Option (Axis_Box N) :=
  let self : Axis_Box N := { min_pt := Vec.origin N, dim_vec := dim }
  ASSERT (all_of self.dim_vec (fun x => decide (x ≥ 0))) self

/-- The accessor `min()`. -/
def min (self : Axis_Box N) : Vec N := self.min_pt

/-- The accessor `max()`: `min_pt + dim_vec`, computed at each call. -/
def max (self : Axis_Box N) : Vec N := Vec.add self.min_pt self.dim_vec

/-- The accessor `dim()`. -/
def dim (self : Axis_Box N) : Vec N := self.dim_vec

/-- The overload `contains(const Vec<T, N>& pos)`. -/
def contains (self : Axis_Box N) (pos : Vec N) : Bool :=
  pairwise_all_of self.min_pt pos (fun a b => decide (a ≤ b)) &&
    pairwise_all_of pos self.max (fun a b => decide (a < b))

/-- The loop of `contains(const Axis_Box<T, N>& other)` over the axes still to
visit, with its two early returns. -/
def contains_box_loop (self other : Axis_Box N) : List (Fin N) → Bool
  | [] => true
  | i :: rest =>
    if other.min i < self.min i then false
    else if other.max i > self.max i then false
    else contains_box_loop self other rest

/-- The overload `contains(const Axis_Box<T, N>& other)`. -/
def contains_box (self other : Axis_Box N) : Bool :=
  contains_box_loop self other (List.finRange N)

/-- The loop of `intersects` over the axes still to visit; the second argument
is the running value of the counter `no_intersect`. -/
def intersects_loop (self other : Axis_Box N) : List (Fin N) → Int → Int
  | [], no_intersect => no_intersect
  | i :: rest, no_intersect =>
    if !(decide (other.min i ≥ self.max i) || decide (self.min i ≥ other.max i)) then
      intersects_loop self other rest (no_intersect - 1)
    else
      intersects_loop self other rest no_intersect

/-- The method `intersects`: the counter starts at `N` and the result is
`!no_intersect`, true exactly when the counter has come down to zero. -/
def intersects (self other : Axis_Box N) : Bool :=
  intersects_loop self other (List.finRange N) (N : Int) == 0

/-- The method `operator+`: a call of the `(min, dim)` constructor on the
translated corner and the unchanged extents. -/
def operator_plus (self : Axis_Box N) (offset : Vec N) : Option (Axis_Box N) :=
  ctor_min_dim (Vec.add self.min_pt offset) self.dim_vec

/-- A call of `operator+` as a transition of the receiver: the member function
is `const` and its body assigns to no member, so the receiver after the call
is the receiver before it; the second component is the returned box. -/
def operator_plus_call (self : Axis_Box N) (offset : Vec N) :
    Axis_Box N × Option (Axis_Box N) :=
  (self, self.operator_plus offset)

/-- The method `volume`: `std::accumulate` over the extents, from `T(1)`, with
the binary operation `a * b`. -/
def volume (self : Axis_Box N) : Int :=
  self.dim_vec.toList.foldl (fun a b => a * b) 1

/-- A chain of `operator+` calls on a box, `((b + v1) + v2) + ...`, one call
per offset of the list and in the order of the list; a call whose constructor
assertion fails ends the chain without a box. -/
def translations (self : Axis_Box N) : List (Vec N) → Option (Axis_Box N)
  | [] => some self
  | v :: rest => (self.operator_plus v).bind fun r => r.translations rest

/-- A box is valid when every extent component is non-negative. -/
def valid (self : Axis_Box N) : Prop := ∀ i : Fin N, 0 ≤ self.dim_vec i

instance (self : Axis_Box N) : Decidable self.valid := by
  unfold valid; infer_instance

end Axis_Box

/-! The instantiation at `float`.

The typedefs `ARectf` and `ACubef` instantiate the class at the scalar type
`float`, whose `+` and `*` round their exact result to the nearest value of
the format and overflow to an infinity.  The part of the class that the
statements below evaluate at `float` is embedded a second time, over the
following model of the scalar type. -/

/-- The scalar type `float` (IEEE 754 binary32), restricted to the values that
the operations below cannot leave: the finite values that are whole numbers,
the two infinities and NaN.  The sign of a zero, which no operation used here
can observe, is not represented. -/
inductive float where
  /-- A finite value, the whole number `value`. -/
  | finite (value : Int)
  /-- An infinity, negative when the flag is set. -/
  | inf (negative : Bool)
  /-- Not a number. -/
  | nan
deriving DecidableEq

namespace float

/-- Count the binary digits of `n`: one more for each halving until zero. -/
def bit_length_loop : Nat → Nat → Nat → Nat
  | 0, _, count => count
  | fuel + 1, n, count =>
    if n = 0 then count else bit_length_loop fuel (n / 2) (count + 1)

/-- The number of binary digits of `n` (0 for 0); `n` halvings are enough. -/
def bit_length (n : Nat) : Nat := bit_length_loop n n 0

/-- Rounding of an exact whole-number result to `float`, to nearest with ties
to even: a magnitude below `2^24` is kept; otherwise the magnitude is cut to
its 24 leading binary digits `q`, the `k` digits cut off decide whether `q` is
stepped up (more than half, or exactly half with `q` odd), and a result of
magnitude `2^128` or more is an infinity. -/
def round_nearest_even (z : Int) : float :=
  let a := z.natAbs
  if a < 2 ^ 24 then finite z
  else
    let k := bit_length a - 24
    let q := a / 2 ^ k
    let r := a % 2 ^ k
    let half := 2 ^ (k - 1)
    let q1 := if r > half ∨ (r = half ∧ q % 2 = 1) then q + 1 else q
    let m := q1 * 2 ^ k
    if m ≥ 2 ^ 128 then inf (decide (z < 0))
    else if z < 0 then finite (-(m : Int)) else finite (m : Int)

/-- A value of the model is a value of the format when rounding keeps it. -/
def representable : float → Bool
  | finite z => decide (round_nearest_even z = finite z)
  | _ => true

/-- The operation `a + b` on `float`. -/
def add : float → float → float
  | nan, _ => nan
  | _, nan => nan
  | inf s, inf t => if s = t then inf s else nan
  | inf s, finite _ => inf s
  | finite _, inf t => inf t
  | finite x, finite y => round_nearest_even (x + y)

/-- The operation `a * b` on `float`. -/
def mul : float → float → float
  | nan, _ => nan
  | _, nan => nan
  | inf s, inf t => inf (s != t)
  | inf s, finite y => if y = 0 then nan else inf (s != decide (y < 0))
  | finite x, inf t => if x = 0 then nan else inf (decide (x < 0) != t)
  | finite x, finite y => round_nearest_even (x * y)

/-- The comparison `a >= b` on `float`; false as soon as one side is NaN. -/
def ge : float → float → Bool
  | nan, _ => false
  | _, nan => false
  | finite x, finite y => decide (x ≥ y)
  | inf s, inf t => !s || t
  | inf s, finite _ => !s
  | finite _, inf t => t

end float

/-- The class `Axis_Box<float, N>`: its two private members, of type
`Vec<float, N>`. -/
structure Axis_Box_float (N : Nat) where
  /-- The member `min_pt`. -/
  min_pt : Fin N → float
  /-- The member `dim_vec`. -/
  dim_vec : Fin N → float

/-- The typedef `ARectf`. -/
abbrev ARectf : Type := Axis_Box_float 2

namespace Axis_Box_float

variable {N : Nat}

/-- The constructor `Axis_Box(min, dim)` at `float`, with its assertion
`all_of(dim_vec, [](T x) { return x >= 0; })`. -/
def ctor_min_dim (min dim : Fin N → float) : Option (Axis_Box_float N) :=
  let self : Axis_Box_float N := { min_pt := min, dim_vec := dim }
  Axis_Box.ASSERT
    (all_of_loop (fun i => float.ge (self.dim_vec i) (float.finite 0)) (List.finRange N)) self

/-- The constructor `Axis_Box(dim)` at `float`: `min_pt` is default-constructed
(zero on every axis), then the same assertion. -/
def ctor_dim (dim : Fin N → float) : Option (Axis_Box_float N) :=
  let self : Axis_Box_float N := { min_pt := fun _ => float.finite 0, dim_vec := dim }
  Axis_Box.ASSERT
    (all_of_loop (fun i => float.ge (self.dim_vec i) (float.finite 0)) (List.finRange N)) self

/-- The accessor `max()` at `float`: `min_pt + dim_vec`, element-wise. -/
def max (self : Axis_Box_float N) : Fin N → float :=
  fun i => float.add (self.min_pt i) (self.dim_vec i)

/-- The method `operator+` at `float`: the `(min, dim)` constructor on
`min_pt + offset` and `dim_vec`. -/
def operator_plus (self : Axis_Box_float N) (offset : Fin N → float) :
    Option (Axis_Box_float N) :=
  ctor_min_dim (fun i => float.add (self.min_pt i) (offset i)) self.dim_vec

/-- The method `volume` at `float`: `std::accumulate` over the extents, from
`T(1)`, with the binary operation `a * b`. -/
def volume (self : Axis_Box_float N) : float :=
  (List.ofFn self.dim_vec).foldl (fun a b => float.mul a b) (float.finite 1)

end Axis_Box_float

/-! Auxiliary facts about the loops. -/

theorem all_of_loop_iff {N : Nat} (f : Fin N → Bool) (l : List (Fin N)) :
    all_of_loop f l = true ↔ ∀ i ∈ l, f i = true := by
  induction l with
  | nil => simp [all_of_loop]
  | cons a rest ih =>
    by_cases h : f a = true
    · simp [all_of_loop, h, ih]
    · simp [all_of_loop, h]

theorem all_of_iff {N : Nat} (v : Vec N) (pred : Int → Bool) :
    all_of v pred = true ↔ ∀ i : Fin N, pred (v i) = true := by
  simp [all_of, all_of_loop_iff, List.mem_finRange]

theorem pairwise_all_of_iff {N : Nat} (a b : Vec N) (pred : Int → Int → Bool) :
    pairwise_all_of a b pred = true ↔ ∀ i : Fin N, pred (a i) (b i) = true := by
  simp [pairwise_all_of, all_of_loop_iff, List.mem_finRange]

theorem Axis_Box.contains_iff_aux {N : Nat} (B : Axis_Box N) (p : Vec N) :
    B.contains p = true ↔ ∀ i : Fin N, B.min i ≤ p i ∧ p i < B.min i + B.dim i := by
  simp only [Axis_Box.contains, Bool.and_eq_true, pairwise_all_of_iff, decide_eq_true_eq,
    Axis_Box.min, Axis_Box.max, Axis_Box.dim, Vec.add]
  exact ⟨fun h i => ⟨h.1 i, h.2 i⟩, fun h => ⟨fun i => (h i).1, fun i => (h i).2⟩⟩

theorem Axis_Box.contains_box_loop_iff {N : Nat} (A B : Axis_Box N) (l : List (Fin N)) :
    A.contains_box_loop B l = true ↔
      ∀ i ∈ l, A.min i ≤ B.min i ∧ B.max i ≤ A.max i := by
  induction l with
  | nil => simp [Axis_Box.contains_box_loop]
  | cons a rest ih =>
    by_cases h1 : B.min a < A.min a
    · simp [Axis_Box.contains_box_loop, h1]
    · by_cases h2 : B.max a > A.max a
      · simp [Axis_Box.contains_box_loop, h1, h2]
      · simp only [Axis_Box.contains_box_loop, h1, h2, if_false, ih, List.mem_cons,
          forall_eq_or_imp]
        constructor
        · intro h
          exact ⟨⟨not_lt.mp h1, not_lt.mp h2⟩, h⟩
        · intro h
          exact h.2

theorem Axis_Box.contains_box_iff_aux {N : Nat} (A B : Axis_Box N) :
    A.contains_box B = true ↔
      ∀ i : Fin N, B.min i ≥ A.min i ∧ B.min i + B.dim i ≤ A.min i + A.dim i := by
  simp only [Axis_Box.contains_box, Axis_Box.contains_box_loop_iff, List.mem_finRange,
    forall_true_left]
  rfl

theorem Axis_Box.intersects_loop_eq {N : Nat} (A B : Axis_Box N) (l : List (Fin N)) (c : Int) :
    A.intersects_loop B l c =
      c - (l.countP fun i =>
        !(decide (B.min i ≥ A.max i) || decide (A.min i ≥ B.max i)) : Nat) := by
  induction l generalizing c with
  | nil => simp [Axis_Box.intersects_loop]
  | cons a rest ih =>
    by_cases h : (!(decide (B.min a ≥ A.max a) || decide (A.min a ≥ B.max a))) = true
    · rw [Axis_Box.intersects_loop, if_pos h, ih, List.countP_cons, if_pos h]
      push_cast
      ring
    · rw [Axis_Box.intersects_loop, if_neg h, ih, List.countP_cons, if_neg h]
      simp

theorem Axis_Box.intersects_iff_aux {N : Nat} (A B : Axis_Box N) :
    A.intersects B = true ↔
      ∀ i : Fin N, ¬ (B.min i ≥ A.max i ∨ A.min i ≥ B.max i) := by
  have hlen : (List.finRange N).length = N := List.length_finRange N
  have hle := List.countP_le_length
    (fun i => !(decide (B.min i ≥ A.max i) || decide (A.min i ≥ B.max i)))
    (l := List.finRange N)
  rw [Axis_Box.intersects, Axis_Box.intersects_loop_eq, beq_iff_eq]
  constructor
  · intro h i
    have hc : List.countP (fun i => !(decide (B.min i ≥ A.max i) || decide (A.min i ≥ B.max i)))
        (List.finRange N) = (List.finRange N).length := by omega
    have := (List.countP_eq_length.mp hc) i (List.mem_finRange i)
    simpa using this
  · intro h
    have hc : List.countP (fun i => !(decide (B.min i ≥ A.max i) || decide (A.min i ≥ B.max i)))
        (List.finRange N) = (List.finRange N).length := by
      apply List.countP_eq_length.mpr
      intro i _
      simpa using h i
    omega

theorem Axis_Box.ASSERT_eq_none_iff {α : Type} (cond : Bool) (value : α) :
    Axis_Box.ASSERT cond value = none ↔ cond = false := by
  cases cond <;> simp [Axis_Box.ASSERT]

theorem Axis_Box.nonneg_check_iff {N : Nat} (dm : Vec N) :
    all_of dm (fun x => decide (x ≥ 0)) = true ↔ ∀ i : Fin N, 0 ≤ dm i := by
  simp [all_of_iff]

theorem Axis_Box.nonneg_check_false_iff {N : Nat} (dm : Vec N) :
    all_of dm (fun x => decide (x ≥ 0)) = false ↔ ∃ i : Fin N, dm i < 0 := by
  rw [← Bool.not_eq_true, Axis_Box.nonneg_check_iff]
  push_neg
  rfl

theorem Axis_Box.ctor_min_dim_of_nonneg {N : Nat} (mn dm : Vec N) (h : ∀ i : Fin N, 0 ≤ dm i) :
    Axis_Box.ctor_min_dim mn dm = some { min_pt := mn, dim_vec := dm } := by
  simp [Axis_Box.ctor_min_dim, Axis_Box.ASSERT, (Axis_Box.nonneg_check_iff dm).mpr h]

theorem Axis_Box.ctor_dim_of_nonneg {N : Nat} (dm : Vec N) (h : ∀ i : Fin N, 0 ≤ dm i) :
    Axis_Box.ctor_dim dm = some { min_pt := Vec.origin N, dim_vec := dm } := by
  simp [Axis_Box.ctor_dim, Axis_Box.ASSERT, (Axis_Box.nonneg_check_iff dm).mpr h]

theorem Axis_Box.volume_eq_prod_aux {N : Nat} (B : Axis_Box N) :
    B.volume = ∏ i : Fin N, B.dim i := by
  have h : B.volume = (List.ofFn B.dim_vec).prod := by
    rw [List.prod_eq_foldl]
    rfl
  rw [h, List.prod_ofFn]
  rfl

theorem Axis_Box.valid_of_ctor_min_dim {N : Nat} (mn dm : Vec N) (b : Axis_Box N)
    (h : Axis_Box.ctor_min_dim mn dm = some b) : b.valid := by
  by_cases hd : ∀ i : Fin N, 0 ≤ dm i
  · rw [Axis_Box.ctor_min_dim_of_nonneg mn dm hd] at h
    cases h
    exact hd
  · have hnone : Axis_Box.ctor_min_dim mn dm = none := by
      rw [Axis_Box.ctor_min_dim, Axis_Box.ASSERT_eq_none_iff, Axis_Box.nonneg_check_false_iff]
      push_neg at hd
      exact hd
    rw [hnone] at h
    cases h

theorem Axis_Box.valid_of_ctor_dim {N : Nat} (dm : Vec N) (b : Axis_Box N)
    (h : Axis_Box.ctor_dim dm = some b) : b.valid := by
  by_cases hd : ∀ i : Fin N, 0 ≤ dm i
  · rw [Axis_Box.ctor_dim_of_nonneg dm hd] at h
    cases h
    exact hd
  · have hnone : Axis_Box.ctor_dim dm = none := by
      rw [Axis_Box.ctor_dim, Axis_Box.ASSERT_eq_none_iff, Axis_Box.nonneg_check_false_iff]
      push_neg at hd
      exact hd
    rw [hnone] at h
    cases h

theorem Axis_Box.operator_plus_of_valid {N : Nat} (B : Axis_Box N) (v : Vec N) (hB : B.valid) :
    B.operator_plus v = some { min_pt := Vec.add B.min_pt v, dim_vec := B.dim_vec } :=
  Axis_Box.ctor_min_dim_of_nonneg (Vec.add B.min_pt v) B.dim_vec hB

theorem Axis_Box.translations_of_valid {N : Nat} (offsets : List (Vec N)) (B : Axis_Box N)
    (hB : B.valid) : ∃ r : Axis_Box N, B.translations offsets = some r ∧ r.valid := by
  induction offsets generalizing B with
  | nil => exact ⟨B, rfl, hB⟩
  | cons v rest ih =>
    obtain ⟨r, hr, hv⟩ := ih { min_pt := Vec.add B.min_pt v, dim_vec := B.dim_vec } hB
    refine ⟨r, ?_, hv⟩
    rw [Axis_Box.translations, Axis_Box.operator_plus_of_valid B v hB]
    exact hr

/-! The claims. -/

/-- C1: for every box `B` and point `p` of the same dimension, `B.contains(p)`
is true if and only if on every axis `min[i] <= p[i]` and
`p[i] < min[i] + dim[i]` (lower bound inclusive, upper bound exclusive); the
2D box with min (1,1) and dim (3,3) contains (1,1) and (3,3) but not (4,4). -/
theorem Axis_Box.contains_point_half_open :
    (∀ (N : Nat) (B : Axis_Box N) (p : Vec N),
      B.contains p = true ↔ ∀ i : Fin N, B.min i ≤ p i ∧ p i < B.min i + B.dim i) ∧
    (Axis_Box.ctor_min_dim ![1, 1] ![3, 3]).map (fun b => b.contains ![1, 1]) = some true ∧
    (Axis_Box.ctor_min_dim ![1, 1] ![3, 3]).map (fun b => b.contains ![3, 3]) = some true ∧
    (Axis_Box.ctor_min_dim ![1, 1] ![3, 3]).map (fun b => b.contains ![4, 4]) = some false :=
  ⟨fun _ B p => Axis_Box.contains_iff_aux B p, by decide, by decide, by decide⟩

/-- C2: for all boxes `A` and `B` of the same dimension, `A.contains(B)` is
true if and only if on every axis `B.min[i] >= A.min[i]` and
`B.max[i] <= A.max[i]`, where `max = min + dim`; the 2D box with min (1,1) and
dim (3,3) contains the box with min (2,2), dim (1,1) but not the box with min
(0,0), dim (1,1). -/
theorem Axis_Box.contains_box_boundary_inclusive :
    (∀ (N : Nat) (A B : Axis_Box N),
      (A.contains_box B = true ↔ ∀ i : Fin N, B.min i ≥ A.min i ∧ B.max i ≤ A.max i) ∧
      ∀ i : Fin N, A.max i = A.min i + A.dim i) ∧
    ((Axis_Box.ctor_min_dim ![1, 1] ![3, 3]).bind fun a =>
      (Axis_Box.ctor_min_dim ![2, 2] ![1, 1]).map fun b => a.contains_box b) = some true ∧
    ((Axis_Box.ctor_min_dim ![1, 1] ![3, 3]).bind fun a =>
      (Axis_Box.ctor_min_dim ![0, 0] ![1, 1]).map fun b => a.contains_box b) = some false :=
  ⟨fun _ A B => ⟨Axis_Box.contains_box_iff_aux A B, fun _ => rfl⟩, by decide, by decide⟩

/-- C3: for all boxes `A` and `B` of the same dimension, `A.intersects(B)`
(the counter that starts at `N`, goes down by one on each overlapping axis and
is compared with zero at the end) is true if and only if no axis satisfies the
non-overlap condition `B.min[i] >= A.max[i]` or `A.min[i] >= B.max[i]`; the
box with min (0,0), dim (2,2) does not intersect the box with min (2,0),
dim (2,2) but does intersect the box with min (1,0), dim (2,2). -/
theorem Axis_Box.intersects_iff_overlap_on_every_axis :
    (∀ (N : Nat) (A B : Axis_Box N),
      A.intersects B = true ↔
        ∀ i : Fin N, ¬ (B.min i ≥ A.max i ∨ A.min i ≥ B.max i)) ∧
    ((Axis_Box.ctor_min_dim ![0, 0] ![2, 2]).bind fun a =>
      (Axis_Box.ctor_min_dim ![2, 0] ![2, 2]).map fun b => a.intersects b) = some false ∧
    ((Axis_Box.ctor_min_dim ![0, 0] ![2, 2]).bind fun a =>
      (Axis_Box.ctor_min_dim ![1, 0] ![2, 2]).map fun b => a.intersects b) = some true :=
  ⟨fun _ A B => Axis_Box.intersects_iff_aux A B, by decide, by decide⟩

/-- C4: each of the two non-default constructors fails (its assertion fires)
if and only if some component of the extent argument is negative; when every
component is non-negative, the `(min, dim)` constructor yields a box whose
`min()` and `dim()` are the arguments and whose `max()` is `min + dim`
component-wise, and the `(dim)` constructor yields a box whose `dim()` is the
argument and whose `min()` is zero on every axis. -/
theorem Axis_Box.ctor_fails_iff_negative_extent (N : Nat) (mn dm : Vec N) :
    (Axis_Box.ctor_min_dim mn dm = none ↔ ∃ i : Fin N, dm i < 0) ∧
    (Axis_Box.ctor_dim dm = none ↔ ∃ i : Fin N, dm i < 0) ∧
    ((∀ i : Fin N, dm i ≥ 0) →
      (∃ b, Axis_Box.ctor_min_dim mn dm = some b ∧ b.min = mn ∧ b.dim = dm ∧
        ∀ i : Fin N, b.max i = mn i + dm i) ∧
      (∃ b, Axis_Box.ctor_dim dm = some b ∧ b.dim = dm ∧ ∀ i : Fin N, b.min i = 0)) := by
  refine ⟨?_, ?_, fun h => ⟨?_, ?_⟩⟩
  · rw [Axis_Box.ctor_min_dim, Axis_Box.ASSERT_eq_none_iff, Axis_Box.nonneg_check_false_iff]
  · rw [Axis_Box.ctor_dim, Axis_Box.ASSERT_eq_none_iff, Axis_Box.nonneg_check_false_iff]
  · exact ⟨_, Axis_Box.ctor_min_dim_of_nonneg mn dm h, rfl, rfl, fun _ => rfl⟩
  · exact ⟨_, Axis_Box.ctor_dim_of_nonneg dm h, rfl, fun _ => rfl⟩

/-- Witness for C4 at min (1,1), dim (3,3): no extent is negative and both
constructors succeed. -/
theorem Axis_Box.ctor_fails_iff_negative_extent_witness :
    (∀ i : Fin 2, (![3, 3] : Vec 2) i ≥ 0) ∧
    (∃ b, Axis_Box.ctor_min_dim ![1, 1] ![3, 3] = some b ∧ b.min = ![1, 1] ∧ b.dim = ![3, 3] ∧
      ∀ i : Fin 2, b.max i = (![1, 1] : Vec 2) i + (![3, 3] : Vec 2) i) ∧
    (∃ b, Axis_Box.ctor_dim (![3, 3] : Vec 2) = some b ∧ b.dim = ![3, 3] ∧
      ∀ i : Fin 2, b.min i = 0) :=
  ⟨by decide, (Axis_Box.ctor_fails_iff_negative_extent 2 ![1, 1] ![3, 3]).2.2 (by decide)⟩

/-- C5: for every box of dimension `N`, `volume()` is the product of the `N`
extent components, computed as a left fold of multiplication starting from 1;
for `N = 0` it is 1; dim (2,3) yields 6 and dim (2,3,4) yields 24. -/
theorem Axis_Box.volume_is_product_of_extents :
    (∀ (N : Nat) (B : Axis_Box N),
      B.volume = ∏ i : Fin N, B.dim i ∧
      B.volume = (List.ofFn B.dim).foldl (fun acc x => acc * x) 1) ∧
    (∀ B : Axis_Box 0, B.volume = 1) ∧
    (Axis_Box.ctor_dim ![2, 3]).map (fun b => b.volume) = some 6 ∧
    (Axis_Box.ctor_dim ![2, 3, 4]).map (fun b => b.volume) = some 24 :=
  ⟨fun _ B => ⟨Axis_Box.volume_eq_prod_aux B, rfl⟩, fun _ => rfl, by decide, by decide⟩

/-- C6, as stated, fails at `float`: the `ARectf` box with min (1,0),
dim (1,1) and the offset (16777216, 0) are made of values of the format, both
constructor assertions pass, and on axis 0 the `max()` of the translated box
is 16777216 where `B.max() + v` is 16777218, because the translated minimum
1 + 16777216 is rounded to 16777216 before the extent is added. -/
theorem Axis_Box_float.operator_plus_max_rounds :
    (float.representable (float.finite 0) && float.representable (float.finite 1) &&
      float.representable (float.finite 16777216)) = true ∧
    ((Axis_Box_float.ctor_min_dim ![float.finite 1, float.finite 0]
        ![float.finite 1, float.finite 1] : Option ARectf).bind fun B =>
      (B.operator_plus ![float.finite 16777216, float.finite 0]).map fun r => r.max 0) =
      some (float.finite 16777216) ∧
    ((Axis_Box_float.ctor_min_dim ![float.finite 1, float.finite 0]
        ![float.finite 1, float.finite 1] : Option ARectf).map fun B =>
      float.add (B.max 0) (float.finite 16777216)) = some (float.finite 16777218) := by
  decide

/-- C6, amended: for every valid box `B` and every offset `v`, `B + v` is a
box whose `dim()` is `B.dim()` and whose `min()` is `B.min() + v`
component-wise, and the receiver is unchanged by the call (its `min()` and
`dim()` after the call are those before it); over exact integer arithmetic
(no rounding, no overflow) the `max()` of `B + v` is `B.max() + v`. -/
theorem Axis_Box.operator_plus_translates (N : Nat) (B : Axis_Box N) (v : Vec N)
    (hB : B.valid) :
    ∃ r : Axis_Box N, B.operator_plus v = some r ∧
      (B.operator_plus_call v).2 = some r ∧
      r.dim = B.dim ∧
      (∀ i : Fin N, r.min i = B.min i + v i) ∧
      (∀ i : Fin N, r.max i = B.max i + v i) ∧
      (B.operator_plus_call v).1.min = B.min ∧
      (B.operator_plus_call v).1.dim = B.dim := by
  have h := Axis_Box.ctor_min_dim_of_nonneg (Vec.add B.min_pt v) B.dim_vec hB
  refine ⟨_, h, h, rfl, fun _ => rfl, fun i => ?_, rfl, rfl⟩
  simp only [Axis_Box.max, Vec.add]
  ring

/-- Witness for C6: the box with min (1,1), dim (3,3) translated by (2,-5). -/
theorem Axis_Box.operator_plus_translates_witness :
    (⟨![1, 1], ![3, 3]⟩ : Axis_Box 2).valid ∧
    ∃ r : Axis_Box 2, (⟨![1, 1], ![3, 3]⟩ : Axis_Box 2).operator_plus ![2, -5] = some r ∧
      ((⟨![1, 1], ![3, 3]⟩ : Axis_Box 2).operator_plus_call ![2, -5]).2 = some r ∧
      r.dim = (⟨![1, 1], ![3, 3]⟩ : Axis_Box 2).dim ∧
      (∀ i : Fin 2, r.min i = (⟨![1, 1], ![3, 3]⟩ : Axis_Box 2).min i + (![2, -5] : Vec 2) i) ∧
      (∀ i : Fin 2, r.max i = (⟨![1, 1], ![3, 3]⟩ : Axis_Box 2).max i + (![2, -5] : Vec 2) i) ∧
      ((⟨![1, 1], ![3, 3]⟩ : Axis_Box 2).operator_plus_call ![2, -5]).1.min =
        (⟨![1, 1], ![3, 3]⟩ : Axis_Box 2).min ∧
      ((⟨![1, 1], ![3, 3]⟩ : Axis_Box 2).operator_plus_call ![2, -5]).1.dim =
        (⟨![1, 1], ![3, 3]⟩ : Axis_Box 2).dim :=
  ⟨by decide, Axis_Box.operator_plus_translates 2 ⟨![1, 1], ![3, 3]⟩ ![2, -5] (by decide)⟩

/-- C7, as stated, fails: the box with min (1,1) and dim (3,0) is built by the
constructor without a failed assertion, every extent of it is non-negative,
and it does not contain its own minimum corner. -/
theorem Axis_Box.contains_min_fails_on_zero_extent :
    Axis_Box.ctor_min_dim ![1, 1] ![3, 0] = some ⟨![1, 1], ![3, 0]⟩ ∧
    (⟨![1, 1], ![3, 0]⟩ : Axis_Box 2).valid ∧
    (⟨![1, 1], ![3, 0]⟩ : Axis_Box 2).contains (⟨![1, 1], ![3, 0]⟩ : Axis_Box 2).min = false :=
  ⟨Axis_Box.ctor_min_dim_of_nonneg _ _ (by decide), by decide, by decide⟩

/-- C7, amended: over exact integer arithmetic (no rounding and no overflow in
`min + dim`), for all boxes `B` whose extent is strictly positive on every
axis, `B.contains(B.min())` is true. -/
theorem Axis_Box.contains_min_of_positive_extent (N : Nat) (B : Axis_Box N)
    (hpos : ∀ i : Fin N, 0 < B.dim i) :
    B.contains B.min = true := by
  rw [Axis_Box.contains_iff_aux]
  intro i
  have := hpos i
  exact ⟨le_refl _, by omega⟩

/-- Witness for the amended C7: the box with min (1,1) and dim (3,3). -/
theorem Axis_Box.contains_min_of_positive_extent_witness :
    (∀ i : Fin 2, 0 < (⟨![1, 1], ![3, 3]⟩ : Axis_Box 2).dim i) ∧
    (⟨![1, 1], ![3, 3]⟩ : Axis_Box 2).contains (⟨![1, 1], ![3, 3]⟩ : Axis_Box 2).min = true :=
  ⟨by decide, Axis_Box.contains_min_of_positive_extent 2 ⟨![1, 1], ![3, 3]⟩ (by decide)⟩

/-- C8, as stated, fails in dimension zero: the default-constructed box of
dimension 0 is valid and contains its own maximum corner, since there is no
axis on which the test could fail. -/
theorem Axis_Box.contains_max_in_dimension_zero :
    (Axis_Box.ctor_default 0).valid ∧
    (Axis_Box.ctor_default 0).contains (Axis_Box.ctor_default 0).max = true :=
  ⟨by decide, by decide⟩

/-- C8, amended: for all valid boxes `B` of dimension at least one,
`B.contains(B.max())` is false. -/
theorem Axis_Box.not_contains_max (N : Nat) (B : Axis_Box N) (hN : 0 < N)
    (_hB : B.valid) :
    B.contains B.max = false := by
  rw [← Bool.not_eq_true, Axis_Box.contains_iff_aux]
  intro h
  have h0 := (h ⟨0, hN⟩).2
  simp only [Axis_Box.max, Axis_Box.min, Axis_Box.dim, Vec.add] at h0
  omega

/-- Witness for the amended C8: the box with min (1,1) and dim (3,3). -/
theorem Axis_Box.not_contains_max_witness :
    0 < 2 ∧ (⟨![1, 1], ![3, 3]⟩ : Axis_Box 2).valid ∧
    (⟨![1, 1], ![3, 3]⟩ : Axis_Box 2).contains (⟨![1, 1], ![3, 3]⟩ : Axis_Box 2).max = false :=
  ⟨by decide, by decide,
    Axis_Box.not_contains_max 2 ⟨![1, 1], ![3, 3]⟩ (by decide) (by decide)⟩

/-- C9: for all valid boxes `B`, `B.contains(B)` is true: the box-containment
test is reflexive. -/
theorem Axis_Box.contains_box_refl (N : Nat) (B : Axis_Box N) (_hB : B.valid) :
    B.contains_box B = true := by
  rw [Axis_Box.contains_box_iff_aux]
  exact fun _ => ⟨le_refl _, le_refl _⟩

/-- Witness for C9: the box with min (1,1) and dim (3,3). -/
theorem Axis_Box.contains_box_refl_witness :
    (⟨![1, 1], ![3, 3]⟩ : Axis_Box 2).valid ∧
    (⟨![1, 1], ![3, 3]⟩ : Axis_Box 2).contains_box ⟨![1, 1], ![3, 3]⟩ = true :=
  ⟨by decide, Axis_Box.contains_box_refl 2 ⟨![1, 1], ![3, 3]⟩ (by decide)⟩

/-- C10: for all boxes `A` and `B` of the same dimension,
`A.intersects(B) == B.intersects(A)`. -/
theorem Axis_Box.intersects_symm (N : Nat) (A B : Axis_Box N) :
    A.intersects B = B.intersects A := by
  rw [Bool.eq_iff_iff, Axis_Box.intersects_iff_aux, Axis_Box.intersects_iff_aux]
  exact forall_congr' fun i => not_congr or_comm

/-- C11, as stated, fails in dimension zero: two boxes of dimension 0 share
their boundary on every axis (there is none), and `intersects` answers true
in both directions, the counter being zero from the start. -/
theorem Axis_Box.touching_boxes_intersect_in_dimension_zero :
    (∀ i : Fin 0, (Axis_Box.ctor_default 0).max i = (Axis_Box.ctor_default 0).min i) ∧
    (Axis_Box.ctor_default 0).intersects (Axis_Box.ctor_default 0) = true :=
  ⟨by decide, by decide⟩

/-- C11, amended: for all boxes `A` and `B` of dimension at least one with
`A.max[i] == B.min[i]` on every axis, `A.intersects(B)` is false and so is
`B.intersects(A)`. -/
theorem Axis_Box.touching_boxes_do_not_intersect (N : Nat) (A B : Axis_Box N)
    (hN : 0 < N) (htouch : ∀ i : Fin N, A.max i = B.min i) :
    A.intersects B = false ∧ B.intersects A = false := by
  have h0 := htouch ⟨0, hN⟩
  constructor
  · rw [← Bool.not_eq_true, Axis_Box.intersects_iff_aux]
    intro h
    exact h ⟨0, hN⟩ (Or.inl (le_of_eq h0))
  · rw [← Bool.not_eq_true, Axis_Box.intersects_iff_aux]
    intro h
    exact h ⟨0, hN⟩ (Or.inr (le_of_eq h0))

/-- Witness for the amended C11: the box with min (0,0), dim (2,2) and the box
with min (2,2), dim (2,2). -/
theorem Axis_Box.touching_boxes_do_not_intersect_witness :
    0 < 2 ∧
    (∀ i : Fin 2, (⟨![0, 0], ![2, 2]⟩ : Axis_Box 2).max i =
      (⟨![2, 2], ![2, 2]⟩ : Axis_Box 2).min i) ∧
    (⟨![0, 0], ![2, 2]⟩ : Axis_Box 2).intersects ⟨![2, 2], ![2, 2]⟩ = false ∧
    (⟨![2, 2], ![2, 2]⟩ : Axis_Box 2).intersects ⟨![0, 0], ![2, 2]⟩ = false :=
  ⟨by decide, by decide,
    Axis_Box.touching_boxes_do_not_intersect 2 ⟨![0, 0], ![2, 2]⟩ ⟨![2, 2], ![2, 2]⟩
      (by decide) (by decide)⟩

/-- C13: for every valid box `B`, `B + 0` has the same `min()` and `dim()` as
`B`, and for every offset `v`, `(B + v) + (-v)` has the same `min()` and the
same `dim()` as `B`. -/
theorem Axis_Box.operator_plus_zero_and_inverse (N : Nat) (B : Axis_Box N) (hB : B.valid) :
    (∃ r : Axis_Box N, B.operator_plus (fun _ => 0) = some r ∧
      r.min = B.min ∧ r.dim = B.dim) ∧
    ∀ v : Vec N, ∃ r : Axis_Box N,
      ((B.operator_plus v).bind fun b => b.operator_plus (fun i => -v i)) = some r ∧
      r.min = B.min ∧ r.dim = B.dim := by
  constructor
  · refine ⟨_, Axis_Box.operator_plus_of_valid B _ hB, ?_, rfl⟩
    funext i
    simp [Axis_Box.min, Vec.add]
  · intro v
    refine ⟨{ min_pt := Vec.add (Vec.add B.min_pt v) (fun i => -v i), dim_vec := B.dim_vec },
      ?_, ?_, rfl⟩
    · rw [Axis_Box.operator_plus_of_valid B v hB]
      exact Axis_Box.operator_plus_of_valid _ _ hB
    · funext i
      simp [Axis_Box.min, Vec.add]

/-- Witness for C13: the box with min (1,1), dim (3,3), translated by the zero
offset, and by (2,-5) and back. -/
theorem Axis_Box.operator_plus_zero_and_inverse_witness :
    (⟨![1, 1], ![3, 3]⟩ : Axis_Box 2).valid ∧
    (∃ r : Axis_Box 2, (⟨![1, 1], ![3, 3]⟩ : Axis_Box 2).operator_plus (fun _ => 0) = some r ∧
      r.min = (⟨![1, 1], ![3, 3]⟩ : Axis_Box 2).min ∧
      r.dim = (⟨![1, 1], ![3, 3]⟩ : Axis_Box 2).dim) ∧
    ∃ r : Axis_Box 2,
      (((⟨![1, 1], ![3, 3]⟩ : Axis_Box 2).operator_plus ![2, -5]).bind
        fun b => b.operator_plus (fun i => -(![2, -5] : Vec 2) i)) = some r ∧
      r.min = (⟨![1, 1], ![3, 3]⟩ : Axis_Box 2).min ∧
      r.dim = (⟨![1, 1], ![3, 3]⟩ : Axis_Box 2).dim :=
  ⟨by decide,
    (Axis_Box.operator_plus_zero_and_inverse 2 ⟨![1, 1], ![3, 3]⟩ (by decide)).1,
    (Axis_Box.operator_plus_zero_and_inverse 2 ⟨![1, 1], ![3, 3]⟩ (by decide)).2 ![2, -5]⟩

/-- C14: every box that the public interface produces has non-negative
extents: a box `b` obtained from a constructor call that did not fail (or from
the default constructor), followed by any number of `operator+` translations,
is again a box, every extent of it is non-negative, and a further `operator+`
on it does not trigger the constructor assertion. -/
theorem Axis_Box.extents_nonneg_invariant (N : Nat) (b : Axis_Box N)
    (offsets : List (Vec N))
    (hb : b = Axis_Box.ctor_default N ∨
      (∃ mn dm : Vec N, Axis_Box.ctor_min_dim mn dm = some b) ∨
      (∃ dm : Vec N, Axis_Box.ctor_dim dm = some b)) :
    ∃ r : Axis_Box N, b.translations offsets = some r ∧ r.valid ∧
      ∀ v : Vec N, ∃ s : Axis_Box N, r.operator_plus v = some s ∧ s.valid := by
  have hvalid : b.valid := by
    rcases hb with h | ⟨mn, dm, h⟩ | ⟨dm, h⟩
    · subst h
      exact fun _ => le_refl _
    · exact Axis_Box.valid_of_ctor_min_dim mn dm b h
    · exact Axis_Box.valid_of_ctor_dim dm b h
  obtain ⟨r, hr, hv⟩ := Axis_Box.translations_of_valid offsets b hvalid
  exact ⟨r, hr, hv, fun v => ⟨_, Axis_Box.operator_plus_of_valid r v hv, hv⟩⟩

/-- Witness for C14: the box built by the `(min, dim)` constructor from
min (1,1), dim (3,3), translated by (2,-5) and then by (0,1). -/
theorem Axis_Box.extents_nonneg_invariant_witness :
    Axis_Box.ctor_min_dim ![1, 1] ![3, 3] = some ⟨![1, 1], ![3, 3]⟩ ∧
    ∃ r : Axis_Box 2,
      (⟨![1, 1], ![3, 3]⟩ : Axis_Box 2).translations [![2, -5], ![0, 1]] = some r ∧ r.valid ∧
      ∀ v : Vec 2, ∃ s : Axis_Box 2, r.operator_plus v = some s ∧ s.valid :=
  ⟨Axis_Box.ctor_min_dim_of_nonneg _ _ (by decide),
    Axis_Box.extents_nonneg_invariant 2 ⟨![1, 1], ![3, 3]⟩ [![2, -5], ![0, 1]]
      (Or.inr (Or.inl ⟨![1, 1], ![3, 3], Axis_Box.ctor_min_dim_of_nonneg _ _ (by decide)⟩))⟩

/-- C15: the default-constructed box has `min()`, `dim()` and `max()` zero on
every axis; in every dimension of at least one it is empty, containing no
point. -/
theorem Axis_Box.default_box_is_zero (N : Nat) :
    (∀ i : Fin N, (Axis_Box.ctor_default N).min i = 0) ∧
    (∀ i : Fin N, (Axis_Box.ctor_default N).dim i = 0) ∧
    (∀ i : Fin N, (Axis_Box.ctor_default N).max i = 0) ∧
    ∀ p : Vec (N + 1), (Axis_Box.ctor_default (N + 1)).contains p = false := by
  refine ⟨fun _ => rfl, fun _ => rfl, fun _ => rfl, fun p => ?_⟩
  rw [← Bool.not_eq_true, Axis_Box.contains_iff_aux]
  intro h
  have h0 := h 0
  simp only [Axis_Box.ctor_default, Axis_Box.min, Axis_Box.dim, Vec.origin] at h0
  omega

/-- C16: for all boxes `A` and `B` of the same dimension and every point `p`,
if `A.contains(p)` and `B.contains(p)` then `A.intersects(B)`; conversely,
when the extents of `A` and of `B` are strictly positive on every axis and
`A.intersects(B)`, the component-wise maximum of `A.min()` and `B.min()` is a
point contained in both. -/
theorem Axis_Box.intersects_iff_common_point (N : Nat) (A B : Axis_Box N) :
    (∀ p : Vec N, A.contains p = true → B.contains p = true → A.intersects B = true) ∧
    ((∀ i : Fin N, 0 < A.dim i) → (∀ i : Fin N, 0 < B.dim i) → A.intersects B = true →
      A.contains (fun i => Max.max (A.min i) (B.min i)) = true ∧
      B.contains (fun i => Max.max (A.min i) (B.min i)) = true) := by
  constructor
  · intro p hA hB
    rw [Axis_Box.contains_iff_aux] at hA hB
    rw [Axis_Box.intersects_iff_aux]
    intro i
    have h1 := hA i
    have h2 := hB i
    simp only [Axis_Box.max, Axis_Box.min, Axis_Box.dim, Vec.add] at *
    omega
  · intro hA hB h
    rw [Axis_Box.intersects_iff_aux] at h
    rw [Axis_Box.contains_iff_aux, Axis_Box.contains_iff_aux]
    constructor
    · intro i
      have h1 := hA i
      have h2 := hB i
      have h3 := h i
      simp only [Axis_Box.max, Axis_Box.min, Axis_Box.dim, Vec.add] at *
      omega
    · intro i
      have h1 := hA i
      have h2 := hB i
      have h3 := h i
      simp only [Axis_Box.max, Axis_Box.min, Axis_Box.dim, Vec.add] at *
      omega

/-- Witness for C16: the boxes with min (0,0), dim (2,2) and min (1,0),
dim (2,2); the point (1,1) lies in both, and the component-wise maximum of the
two minimum corners lies in both. -/
theorem Axis_Box.intersects_iff_common_point_witness :
    ((⟨![0, 0], ![2, 2]⟩ : Axis_Box 2).contains ![1, 1] = true ∧
      (⟨![1, 0], ![2, 2]⟩ : Axis_Box 2).contains ![1, 1] = true ∧
      (⟨![0, 0], ![2, 2]⟩ : Axis_Box 2).intersects ⟨![1, 0], ![2, 2]⟩ = true) ∧
    (∀ i : Fin 2, 0 < (⟨![0, 0], ![2, 2]⟩ : Axis_Box 2).dim i) ∧
    (∀ i : Fin 2, 0 < (⟨![1, 0], ![2, 2]⟩ : Axis_Box 2).dim i) ∧
    (⟨![0, 0], ![2, 2]⟩ : Axis_Box 2).contains
      (fun i => Max.max ((⟨![0, 0], ![2, 2]⟩ : Axis_Box 2).min i)
        ((⟨![1, 0], ![2, 2]⟩ : Axis_Box 2).min i)) = true ∧
    (⟨![1, 0], ![2, 2]⟩ : Axis_Box 2).contains
      (fun i => Max.max ((⟨![0, 0], ![2, 2]⟩ : Axis_Box 2).min i)
        ((⟨![1, 0], ![2, 2]⟩ : Axis_Box 2).min i)) = true :=
  ⟨⟨by decide, by decide,
      (Axis_Box.intersects_iff_common_point 2 ⟨![0, 0], ![2, 2]⟩ ⟨![1, 0], ![2, 2]⟩).1
        ![1, 1] (by decide) (by decide)⟩,
    by decide, by decide,
    (Axis_Box.intersects_iff_common_point 2 ⟨![0, 0], ![2, 2]⟩ ⟨![1, 0], ![2, 2]⟩).2
      (by decide) (by decide) (by decide)⟩

/-- C17: for all boxes `A` and `B` and every point `p`, if `A.contains(B)` and
`B.contains(p)` then `A.contains(p)`. -/
theorem Axis_Box.contains_box_then_contains_point (N : Nat) (A B : Axis_Box N) (p : Vec N)
    (hAB : A.contains_box B = true) (hBp : B.contains p = true) :
    A.contains p = true := by
  rw [Axis_Box.contains_box_iff_aux] at hAB
  rw [Axis_Box.contains_iff_aux] at hBp ⊢
  intro i
  have h1 := hAB i
  have h2 := hBp i
  omega

/-- Witness for C17: the box with min (1,1), dim (3,3), its sub-box with
min (2,2), dim (1,1), and the point (2,2). -/
theorem Axis_Box.contains_box_then_contains_point_witness :
    (⟨![1, 1], ![3, 3]⟩ : Axis_Box 2).contains_box ⟨![2, 2], ![1, 1]⟩ = true ∧
    (⟨![2, 2], ![1, 1]⟩ : Axis_Box 2).contains ![2, 2] = true ∧
    (⟨![1, 1], ![3, 3]⟩ : Axis_Box 2).contains ![2, 2] = true :=
  ⟨by decide, by decide,
    Axis_Box.contains_box_then_contains_point 2 ⟨![1, 1], ![3, 3]⟩ ⟨![2, 2], ![1, 1]⟩ ![2, 2]
      (by decide) (by decide)⟩

/-- C18: the three predicates are invariant under a common translation: for
all valid boxes `A`, `B`, every point `p` and every offset `v`, the boxes
`A + v` and `B + v` exist and `(A + v).contains(p + v) == A.contains(p)`,
`(A + v).contains(B + v) == A.contains(B)` and
`(A + v).intersects(B + v) == A.intersects(B)`. -/
theorem Axis_Box.predicates_translation_invariant (N : Nat) (A B : Axis_Box N)
    (p v : Vec N) (hA : A.valid) (hB : B.valid) :
    ∃ Av Bv : Axis_Box N, A.operator_plus v = some Av ∧ B.operator_plus v = some Bv ∧
      Av.contains (Vec.add p v) = A.contains p ∧
      Av.contains_box Bv = A.contains_box B ∧
      Av.intersects Bv = A.intersects B := by
  refine ⟨_, _, Axis_Box.operator_plus_of_valid A v hA, Axis_Box.operator_plus_of_valid B v hB,
    ?_, ?_, ?_⟩
  · rw [Bool.eq_iff_iff, Axis_Box.contains_iff_aux, Axis_Box.contains_iff_aux]
    refine forall_congr' fun i => ?_
    simp only [Axis_Box.min, Axis_Box.dim, Vec.add]
    constructor <;> intro h <;> omega
  · rw [Bool.eq_iff_iff, Axis_Box.contains_box_iff_aux, Axis_Box.contains_box_iff_aux]
    refine forall_congr' fun i => ?_
    simp only [Axis_Box.min, Axis_Box.dim, Vec.add]
    constructor <;> intro h <;> omega
  · rw [Bool.eq_iff_iff, Axis_Box.intersects_iff_aux, Axis_Box.intersects_iff_aux]
    refine forall_congr' fun i => ?_
    simp only [Axis_Box.min, Axis_Box.max, Vec.add]
    constructor <;> intro h <;> omega

/-- Witness for C18: the boxes with min (0,0), dim (2,2) and min (1,0),
dim (2,2), the point (1,1) and the offset (2,-5). -/
theorem Axis_Box.predicates_translation_invariant_witness :
    (⟨![0, 0], ![2, 2]⟩ : Axis_Box 2).valid ∧ (⟨![1, 0], ![2, 2]⟩ : Axis_Box 2).valid ∧
    ∃ Av Bv : Axis_Box 2,
      (⟨![0, 0], ![2, 2]⟩ : Axis_Box 2).operator_plus ![2, -5] = some Av ∧
      (⟨![1, 0], ![2, 2]⟩ : Axis_Box 2).operator_plus ![2, -5] = some Bv ∧
      Av.contains (Vec.add ![1, 1] ![2, -5]) =
        (⟨![0, 0], ![2, 2]⟩ : Axis_Box 2).contains ![1, 1] ∧
      Av.contains_box Bv =
        (⟨![0, 0], ![2, 2]⟩ : Axis_Box 2).contains_box ⟨![1, 0], ![2, 2]⟩ ∧
      Av.intersects Bv =
        (⟨![0, 0], ![2, 2]⟩ : Axis_Box 2).intersects ⟨![1, 0], ![2, 2]⟩ :=
  ⟨by decide, by decide,
    Axis_Box.predicates_translation_invariant 2 ⟨![0, 0], ![2, 2]⟩ ⟨![1, 0], ![2, 2]⟩
      ![1, 1] ![2, -5] (by decide) (by decide)⟩

/-- C19: for every valid box `B`, `B.intersects(B)` is true if and only if
every extent component of `B` is strictly positive; a valid box with a zero
extent on some axis does not intersect itself; and
`B.intersects(B) == B.contains(B.min())`. -/
theorem Axis_Box.intersects_self_iff_positive_extent (N : Nat) (B : Axis_Box N)
    (_hB : B.valid) :
    (B.intersects B = true ↔ ∀ i : Fin N, 0 < B.dim i) ∧
    ((∃ i : Fin N, B.dim i = 0) → B.intersects B = false) ∧
    B.intersects B = B.contains B.min := by
  have hself : B.intersects B = true ↔ ∀ i : Fin N, 0 < B.dim i := by
    rw [Axis_Box.intersects_iff_aux]
    refine forall_congr' fun i => ?_
    simp only [Axis_Box.min, Axis_Box.max, Axis_Box.dim, Vec.add]
    constructor <;> intro h <;> omega
  refine ⟨hself, ?_, ?_⟩
  · rintro ⟨i, hi⟩
    rw [← Bool.not_eq_true, hself]
    intro h
    have := h i
    omega
  · rw [Bool.eq_iff_iff, hself, Axis_Box.contains_iff_aux]
    refine forall_congr' fun i => ?_
    simp only [Axis_Box.min, Axis_Box.dim]
    constructor <;> intro h <;> omega

/-- Witness for C19: the valid box with min (1,1), dim (3,0), whose second
extent is 0. -/
theorem Axis_Box.intersects_self_iff_positive_extent_witness :
    (⟨![1, 1], ![3, 0]⟩ : Axis_Box 2).valid ∧
    (∃ i : Fin 2, (⟨![1, 1], ![3, 0]⟩ : Axis_Box 2).dim i = 0) ∧
    (⟨![1, 1], ![3, 0]⟩ : Axis_Box 2).intersects ⟨![1, 1], ![3, 0]⟩ = false ∧
    (⟨![1, 1], ![3, 0]⟩ : Axis_Box 2).intersects ⟨![1, 1], ![3, 0]⟩ =
      (⟨![1, 1], ![3, 0]⟩ : Axis_Box 2).contains (⟨![1, 1], ![3, 0]⟩ : Axis_Box 2).min :=
  ⟨by decide, ⟨1, rfl⟩,
    (Axis_Box.intersects_self_iff_positive_extent 2 ⟨![1, 1], ![3, 0]⟩ (by decide)).2.1
      ⟨1, rfl⟩,
    (Axis_Box.intersects_self_iff_positive_extent 2 ⟨![1, 1], ![3, 0]⟩ (by decide)).2.2⟩

/-- C20: volume is monotone under box containment: for all valid boxes `A`
and `B` of the same dimension, if `A.contains(B)` then `0 <= B.volume()` and
`B.volume() <= A.volume()`. -/
theorem Axis_Box.volume_mono_of_contains_box (N : Nat) (A B : Axis_Box N)
    (_hA : A.valid) (hB : B.valid) (hAB : A.contains_box B = true) :
    0 ≤ B.volume ∧ B.volume ≤ A.volume := by
  rw [Axis_Box.contains_box_iff_aux] at hAB
  rw [Axis_Box.volume_eq_prod_aux, Axis_Box.volume_eq_prod_aux]
  constructor
  · exact Finset.prod_nonneg fun i _ => hB i
  · refine Finset.prod_le_prod (fun i _ => hB i) fun i _ => ?_
    have h := hAB i
    omega

/-- Witness for C20: the box with min (1,1), dim (3,3) and its sub-box with
min (2,2), dim (1,1). -/
theorem Axis_Box.volume_mono_of_contains_box_witness :
    (⟨![1, 1], ![3, 3]⟩ : Axis_Box 2).valid ∧ (⟨![2, 2], ![1, 1]⟩ : Axis_Box 2).valid ∧
    (⟨![1, 1], ![3, 3]⟩ : Axis_Box 2).contains_box ⟨![2, 2], ![1, 1]⟩ = true ∧
    0 ≤ (⟨![2, 2], ![1, 1]⟩ : Axis_Box 2).volume ∧
    (⟨![2, 2], ![1, 1]⟩ : Axis_Box 2).volume ≤ (⟨![1, 1], ![3, 3]⟩ : Axis_Box 2).volume :=
  ⟨by decide, by decide, by decide,
    Axis_Box.volume_mono_of_contains_box 2 ⟨![1, 1], ![3, 3]⟩ ⟨![2, 2], ![1, 1]⟩
      (by decide) (by decide) (by decide)⟩
